import Mathlib

/-!
Shallow embedding of the Authenticode-style signature verifier of
src/client/submodules/tgbverifier/src/tgbverifiermodule.c.

The module is built without UNICODE (the Python binding hands a narrow
char path to functions taking LPCTSTR, and compares lpszSubjectName
against narrow string literals), so the active path-conversion branches
are the mbstowcs_s ones, TCHAR = char, and _tcsncicmp = _strnicmp.

Platform primitives (WinVerifyTrust, CryptQueryObject, CryptMsgGetParam,
CertFindCertificateInStore, CertGetNameString, CryptDecodeObject) are
modelled as oracles bundled in a Platform record: every outcome the
program branches on is a field, so the embedding is a function of the
program input and of those oracle answers.  Heap allocation
(LocalAlloc / VirtualAlloc) is modelled as always succeeding; committed
pages are zero-filled, which is visible where the code stores a buffer
into the output structure before the fetch into it has succeeded.
-/

/-- Outcome of one WinVerifyTrust call, i.e. the lStatus values the
switch in SD_VerifyEmbeddedSignature distinguishes.  Constructor names
follow the spec's TrustResult; each comment names the C constant. -/
inductive TrustResult where
  | success               -- ERROR_SUCCESS
  | notSigned             -- TRUST_E_NOSIGNATURE
  | explicitlyDistrusted  -- TRUST_E_EXPLICIT_DISTRUST
  | userDistrusted        -- TRUST_E_SUBJECT_NOT_TRUSTED
  | securityPolicyBlocked -- CRYPT_E_SECURITY_SETTINGS
  | signatureInvalid      -- TRUST_E_BAD_DIGEST
  | chainingFailed        -- CERT_E_CHAINING
  | unknown (code : Int)  -- any other status (the switch default)
deriving DecidableEq, Repr

/-- SPC_LINK: the tagged choice inside SPC_SP_OPUS_INFO link fields.
The dwLinkChoice tag selects which union member is read. -/
inductive SpcLink where
  | url (s : String)       -- SPC_URL_LINK_CHOICE: pwszUrl
  | file (s : String)      -- SPC_FILE_LINK_CHOICE: pwszFile
  | other (tag : Int)      -- any other dwLinkChoice value (switch default)
deriving DecidableEq, Repr

/-- Decoded SPC_SP_OPUS_INFO structure. -/
structure SpcSpOpusInfo where
  pwszProgramName : Option String
  pPublisherInfo : Option SpcLink
  pMoreInfo : Option SpcLink
deriving DecidableEq, Repr

/-- One authenticated attribute of the signer info, together with the
oracle answers of the two-phase CryptDecodeObject on its first value:
the size query (NULL output buffer) and the decode into a buffer of a
given size.  A none answer models the call returning FALSE. -/
structure CryptAttribute where
  objId : String
  decodeOpusSize : Option Nat
  decodeOpus : Nat → Option SpcSpOpusInfo

/-- CMSG_SIGNER_INFO: the fields the program reads. -/
structure SignerInfo where
  issuer : String
  serialNumber : List Nat
  authAttrs : List CryptAttribute

/-- Certificate context found in the store; name-query oracles model the
two CertGetNameString phases (length query, then fetch into the
allocated buffer).  A fetch answer of none models the call returning 0
after the buffer was already allocated (and hence zero-filled). -/
structure CertContext where
  serialNumber : List Nat
  issuerNameLen : Nat
  issuerNameFetch : Option String
  subjectNameLen : Nat
  subjectNameFetch : Option String

/-- HCERTSTORE: CertFindCertificateInStore with CERT_FIND_SUBJECT_CERT,
keyed by the issuer and serial number taken from the signer info. -/
structure HCertStore where
  findCert : String → List Nat → Option CertContext

/-- HCRYPTMSG: the two CryptMsgGetParam phases for CMSG_SIGNER_INFO_PARAM
(size query with NULL buffer, then fetch into a buffer of a given size). -/
structure HCryptMsg where
  signerInfoSize : Option Nat
  signerInfoFetch : Nat → Option SignerInfo

/-- Result of a successful CryptQueryObject: the store and message handles. -/
structure MsgStore where
  hStore : HCertStore
  hMsg : HCryptMsg

/-- The platform trust subsystem, as the oracles the program consults.
winVerifyTrust takes the (already converted, possibly truncated) file
name and whether WTD_CACHE_ONLY_URL_RETRIEVAL was set in dwProvFlags;
cryptQueryObject takes the converted file name. -/
structure Platform where
  winVerifyTrust : List Char → Bool → TrustResult
  cryptQueryObject : List Char → Option MsgStore

/-- SPROG_SIGNATUREINFO.  Pointer fields are Option values: none is a
NULL pointer.  cbSerialSize is the separate DWORD field the C keeps. -/
structure SPROG_SIGNATUREINFO where
  lpszProgramName : Option String
  lpszPublisherLink : Option String
  lpszMoreInfoLink : Option String
  cbSerialSize : Nat
  lpSerialNumber : Option (List Nat)
  lpszIssuerName : Option String
  lpszSubjectName : Option String
deriving DecidableEq, Repr

/-- The zero-initialized SPROG_SIGNATUREINFO (ZeroMemory in tgb_is_signed). -/
def emptyInfo : SPROG_SIGNATUREINFO :=
  { lpszProgramName := none
    lpszPublisherLink := none
    lpszMoreInfoLink := none
    cbSerialSize := 0
    lpSerialNumber := none
    lpszIssuerName := none
    lpszSubjectName := none }

def MAX_PATH : Nat := 260

/-- STRUNCATE, the CRT status mbstowcs_s reports when _TRUNCATE made it
cut the source short. -/
def STRUNCATE : Nat := 80

/-- Model of mbstowcs_s(&RetSize, dst, MAX_PATH, src, _TRUNCATE): the
destination holds at most MAX_PATH - 1 characters plus the terminator;
a source that fits is copied whole with return value 0, a longer source
is truncated to MAX_PATH - 1 characters with return value STRUNCATE. -/
def mbstowcsTrunc (src : List Char) : List Char × Nat :=
  if src.length ≤ MAX_PATH - 1 then (src, 0)
  else (src.take (MAX_PATH - 1), STRUNCATE)

/-- The switch in SD_VerifyEmbeddedSignature: the cases that set
DoSecondPass = TRUE are CERT_E_CHAINING and the default; every other
labelled case only breaks. -/
def doSecondPassTrigger : TrustResult → Bool
  | .chainingFailed => true   -- CERT_E_CHAINING
  | .unknown _ => true        -- default
  | _ => false

/-- SD_VerifyEmbeddedSignature.  The mbstowcs_s return value is not
checked here, so the (possibly truncated) buffer is used as the file
name.  The do-while body runs once with DoSecondPass = FALSE (hence
dwProvFlags = WTD_CACHE_ONLY_URL_RETRIEVAL, the Bool argument true);
if the switch set DoSecondPass, Count = 1 < 2 lets the body run a
second time without the cache-only flag, after which Count = 2 stops
the loop whatever the outcome.  The C function returns lStatus only;
the second component instruments the final value of Count (the number
of WinVerifyTrust attempts made). -/
def SD_VerifyEmbeddedSignature (pf : Platform) (pszSourceFile : List Char) :
    TrustResult × Nat :=
  let wszFileName := (mbstowcsTrunc pszSourceFile).1
  let lStatus := pf.winVerifyTrust wszFileName true
  if doSecondPassTrigger lStatus then
    (pf.winVerifyTrust wszFileName false, 2)
  else
    (lStatus, 1)

/-- First WinVerifyTrust call made for a path: cache-only flag set. -/
def firstAttempt (pf : Platform) (path : List Char) : TrustResult :=
  pf.winVerifyTrust (mbstowcsTrunc path).1 true

/-- Second WinVerifyTrust call made for a path: cache-only flag clear. -/
def secondAttempt (pf : Platform) (path : List Char) : TrustResult :=
  pf.winVerifyTrust (mbstowcsTrunc path).1 false

def SPC_SP_OPUS_INFO_OBJID : String := "1.3.6.1.4.1.311.2.1.12"

/-- The switch on dwLinkChoice used for both link fields of
SPC_SP_OPUS_INFO: URL and file variants are copied, the default leaves
the field NULL. -/
def linkToString : SpcLink → Option String
  | .url s => some s
  | .file s => some s
  | .other _ => none

/-- GetProgAndPublisherInfo: scan the authenticated attributes for the
first one whose pszObjId equals SPC_SP_OPUS_INFO_OBJID (the loop breaks
after handling it).  If none matches, or either CryptDecodeObject phase
fails (the leave paths), pInfo is returned untouched; otherwise the
three descriptive fields are filled from the decoded structure
(AllocateAndCopyWideString is modelled as the identity copy). -/
def GetProgAndPublisherInfo (pSignerInfo : SignerInfo)
    (pInfo : SPROG_SIGNATUREINFO) : SPROG_SIGNATUREINFO :=
  match pSignerInfo.authAttrs.find? (fun a => a.objId == SPC_SP_OPUS_INFO_OBJID) with
  | none => pInfo
  | some attr =>
    match attr.decodeOpusSize with
    | none => pInfo
    | some dwData =>
      match attr.decodeOpus dwData with
      | none => pInfo
      | some opusInfo =>
        { pInfo with
          lpszProgramName := opusInfo.pwszProgramName
          lpszPublisherLink :=
            match opusInfo.pPublisherInfo with
            | none => none
            | some l => linkToString l
          lpszMoreInfoLink :=
            match opusInfo.pMoreInfo with
            | none => none
            | some l => linkToString l }

/-- GetCertificateInfo: look the signer certificate up by issuer and
serial number; when absent, leave the whole outer try block with pInfo
untouched.  When found, the serial number is always copied; each name
is handled in its own inner try block, whose leave statements exit only
that inner block, so a failing issuer-name query does not stop the
subject-name query.  The length query returning 0 leaves the field
NULL; if the fetch into the already-allocated (zero-committed) buffer
fails, the field keeps the empty string that buffer holds. -/
def GetCertificateInfo (hStore : HCertStore) (pSignerInfo : SignerInfo)
    (pInfo : SPROG_SIGNATUREINFO) : SPROG_SIGNATUREINFO :=
  match hStore.findCert pSignerInfo.issuer pSignerInfo.serialNumber with
  | none => pInfo
  | some cert =>
    let pInfo := { pInfo with
      cbSerialSize := cert.serialNumber.length
      lpSerialNumber := some cert.serialNumber }
    let pInfo :=
      if cert.issuerNameLen = 0 then pInfo
      else { pInfo with lpszIssuerName := some (cert.issuerNameFetch.getD "") }
    if cert.subjectNameLen = 0 then pInfo
    else { pInfo with lpszSubjectName := some (cert.subjectNameFetch.getD "") }

/-- SD_GetAuthenticodeInformation.  The mbstowcs_s return value is
checked: a nonzero status (STRUNCATE on truncation) leaves with
bRet = FALSE before any crypto call.  Then CryptQueryObject, the
signer-info size query, and the fetch into a buffer of exactly the
queried size each leave with FALSE on failure; on success the two VOID
helpers fill pInfo and bRet = TRUE is returned unconditionally. -/
def SD_GetAuthenticodeInformation (pf : Platform) (lpszFileName : List Char)
    (pInfo : SPROG_SIGNATUREINFO) : Bool × SPROG_SIGNATUREINFO :=
  let conv := mbstowcsTrunc lpszFileName
  if conv.2 ≠ 0 then (false, pInfo)
  else
    match pf.cryptQueryObject conv.1 with
    | none => (false, pInfo)
    | some ms =>
      match ms.hMsg.signerInfoSize with
      | none => (false, pInfo)
      | some dwSignerInfo =>
        match ms.hMsg.signerInfoFetch dwSignerInfo with
        | none => (false, pInfo)
        | some pSignerInfo =>
          let pInfo := GetProgAndPublisherInfo pSignerInfo pInfo
          let pInfo := GetCertificateInfo ms.hStore pSignerInfo pInfo
          (true, pInfo)

/-- Case-insensitive comparison as _strnicmp lowers characters: the C
locale tolower, which only folds ASCII capitals. -/
def asciiToLower (c : Char) : Char :=
  if 'A' ≤ c ∧ c ≤ 'Z' then Char.ofNat (c.toNat + 32) else c

/-- strnicmpZero s t n decides whether _strnicmp(s, t, n) returns 0:
compare at most n characters case-insensitively, stopping early at a
difference or when both strings end; a string ending while the other
continues compares its terminator against a live character and differs. -/
def strnicmpZero : List Char → List Char → Nat → Bool
  | _, _, 0 => true
  | [], [], _ + 1 => true
  | [], _ :: _, _ + 1 => false
  | _ :: _, [], _ + 1 => false
  | c₁ :: s₁, c₂ :: s₂, n + 1 =>
    asciiToLower c₁ == asciiToLower c₂ && strnicmpZero s₁ s₂ n

/-- The subject-name test of tgb_is_signed:
_tcsncicmp(subject, "TheGreenBow", 11) == 0 ||
_tcsncicmp(subject, "SISTECH", 7) == 0. -/
def subjectAllowed (s : String) : Bool :=
  strnicmpZero s.toList "TheGreenBow".toList 11
    || strnicmpZero s.toList "SISTECH".toList 7

/-- The same test applied to the lpszSubjectName pointer: when it is
still NULL, _tcsncicmp dereferences a null pointer, which is undefined
behavior (an access violation on Windows); modelled as none. -/
def subjectNameCheck : Option String → Option Bool
  | none => none
  | some s => some (subjectAllowed s)

/-- The part of tgb_is_signed that runs once WinVerifyTrust reported
ERROR_SUCCESS: extract the Authenticode information (into the
zero-initialized SignInfo) and, when that reports success, test the
subject name; a prefix hit returns True, every other defined outcome
falls through to return False. -/
def extractionAndPolicy (pf : Platform) (path : List Char) : Option Bool :=
  match SD_GetAuthenticodeInformation pf path emptyInfo with
  | (true, signInfo) => subjectNameCheck signInfo.lpszSubjectName
  | (false, _) => some false

/-- tgb_is_signed, after PyArg_ParseTuple has produced the path string:
verify the embedded signature, and only on ERROR_SUCCESS run extraction
and the publisher test; every failure path reaches the final
PyBool_FromLong(0).  The result is none exactly when the undefined
null-subject comparison is reached. -/
def tgb_is_signed (pf : Platform) (path : List Char) : Option Bool :=
  if (SD_VerifyEmbeddedSignature pf path).1 = .success then
    extractionAndPolicy pf path
  else
    some false

/-- The publisher decision of tgb_is_signed as a function of the two
inputs the spec's PublisherPolicy names: the WinVerifyTrust status and
the extracted subject name (the ERROR_SUCCESS guard and the two
_tcsncicmp tests of lines 509-518). -/
def isTrustedPublisher (trustResult : TrustResult) (subjectName : String) : Bool :=
  decide (trustResult = .success) && subjectAllowed subjectName

/-- Modelled from the spec: the PublisherPolicy decision rule in the
spec's words, for the refinement comparison — the subject name,
compared case-insensitively, matches one of the allow-listed entries
over exactly the first N characters, where N is that entry's length. -/
def specAllowListMatch (allowList : List String) (s : String) : Prop :=
  ∃ p ∈ allowList, p.toList.length ≤ s.toList.length ∧
    (s.toList.take p.toList.length).map asciiToLower = p.toList.map asciiToLower

/-- The two vendor name entries compiled into tgb_is_signed. -/
def allowListTGB : List String := ["TheGreenBow", "SISTECH"]

/-- One external call with the ambient platform state threaded through:
the pipeline releases every handle it opens (LocalFree, CertCloseStore,
CryptMsgClose, CertFreeCertificateContext) and never writes to the
certificate or trust store, so the state a call returns is the state it
received. -/
def tgb_is_signed_call (pf : Platform) (path : List Char) :
    Option Bool × Platform :=
  (tgb_is_signed pf path, pf)

/-- Platform whose cache-only verification reports a chaining failure
and whose network retry reports an unsigned file. -/
def pf4 : Platform :=
  { winVerifyTrust := fun _ cacheOnly =>
      if cacheOnly then .chainingFailed else .notSigned
    cryptQueryObject := fun _ => none }

/-- Signer info with no authenticated attributes. -/
def si1 : SignerInfo :=
  { issuer := "CN=I", serialNumber := [1], authAttrs := [] }

/-- Platform where the file parses as a signed object and the signer
info is fetched, but the signer's certificate is not in the store. -/
def pf1 : Platform :=
  { winVerifyTrust := fun _ _ => .success
    cryptQueryObject := fun _ =>
      some { hStore := { findCert := fun _ _ => none }
             hMsg := { signerInfoSize := some 1
                       signerInfoFetch := fun _ => some si1 } } }

/-- Platform with the same answers as pf1, for the pipeline-level
evaluation: trust succeeds, extraction reports success, certificate
lookup fails. -/
def pf5 : Platform :=
  { winVerifyTrust := fun _ _ => .success
    cryptQueryObject := fun _ =>
      some { hStore := { findCert := fun _ _ => none }
             hMsg := { signerInfoSize := some 1
                       signerInfoFetch := fun _ => some si1 } } }

/-- Certificate whose name queries all succeed. -/
def certAllOk : CertContext :=
  { serialNumber := [1]
    issuerNameLen := 4
    issuerNameFetch := some "Iss"
    subjectNameLen := 4
    subjectNameFetch := some "Sub" }

/-- Message and store handles on which every query succeeds. -/
def msAllOk : MsgStore :=
  { hStore := { findCert := fun _ _ => some certAllOk }
    hMsg := { signerInfoSize := some 1
              signerInfoFetch := fun _ => some si1 } }

/-- Platform on which every oracle succeeds for every path. -/
def pfAllOk : Platform :=
  { winVerifyTrust := fun _ _ => .success
    cryptQueryObject := fun _ => some msAllOk }

/-- A path of exactly MAX_PATH characters, one more than the conversion
buffer can hold. -/
def longPath : List Char := List.replicate MAX_PATH 'a'

/-- Decoded opus structure whose two links carry an unrecognized
dwLinkChoice tag. -/
def opus6 : SpcSpOpusInfo :=
  { pwszProgramName := some "Prog"
    pPublisherInfo := some (.other 3)
    pMoreInfo := some (.other 3) }

/-- Authenticated attribute carrying the opus identifier and decoding
to opus6. -/
def attr6 : CryptAttribute :=
  { objId := SPC_SP_OPUS_INFO_OBJID
    decodeOpusSize := some 4
    decodeOpus := fun _ => some opus6 }

/-- Signer info without the opus attribute. -/
def si6absent : SignerInfo :=
  { issuer := "CN=I", serialNumber := [1], authAttrs := [] }

/-- Signer info whose opus attribute decodes to unrecognized link tags. -/
def si6tag : SignerInfo :=
  { issuer := "CN=I", serialNumber := [1], authAttrs := [attr6] }

/-- Characterization of the zero return of _strnicmp when the count
equals the length of the second string: it holds exactly when the first
string is at least that long and its first characters, lowered, equal
the lowered second string. -/
theorem strnicmpZero_iff (p : List Char) : ∀ s : List Char,
    strnicmpZero s p p.length = true ↔
      p.length ≤ s.length ∧
        (s.take p.length).map asciiToLower = p.map asciiToLower := by
  induction p with
  | nil =>
    intro s
    simp [strnicmpZero]
  | cons c p ih =>
    intro s
    cases s with
    | nil =>
      simp [strnicmpZero]
    | cons c₁ s₁ =>
      show (asciiToLower c₁ == asciiToLower c && strnicmpZero s₁ p p.length) = true ↔ _
      simp only [Bool.and_eq_true, beq_iff_eq, ih s₁, List.length_cons,
        Nat.succ_le_succ_iff, List.take_succ_cons, List.map_cons, List.cons.injEq]
      tauto

/-- The length bound in strnicmpZero_iff is implied by the map equality,
since a list of the compared length can only arise from a long enough
source. -/
theorem strnicmpZero_iff_take (p s : List Char) :
    strnicmpZero s p p.length = true ↔
      (s.take p.length).map asciiToLower = p.map asciiToLower := by
  rw [strnicmpZero_iff]
  constructor
  · rintro ⟨-, h⟩
    exact h
  · intro h
    refine ⟨?_, h⟩
    have hl := congrArg List.length h
    simp only [List.length_map, List.length_take] at hl
    rwa [min_eq_left_iff] at hl

/-- C2: the publisher decision of tgb_is_signed is true iff the trust
result is Success and the subject name, compared case-insensitively,
matches an allow-listed entry over exactly the first N characters (N
that entry's own length); in particular a subject name containing an
entry only at an offset greater than 0 yields false. -/
theorem isTrustedPublisher_correct :
    (∀ (t : TrustResult) (s : String),
        isTrustedPublisher t s = true ↔
          (t = .success ∧ specAllowListMatch allowListTGB s)) ∧
      isTrustedPublisher .success "Not TheGreenBow Inc" = false := by
  constructor
  · intro t s
    unfold isTrustedPublisher subjectAllowed specAllowListMatch allowListTGB
    rw [Bool.and_eq_true, Bool.or_eq_true, decide_eq_true_iff]
    rw [show (11 : Nat) = ("TheGreenBow".toList).length from rfl,
      show (7 : Nat) = ("SISTECH".toList).length from rfl,
      strnicmpZero_iff, strnicmpZero_iff]
    simp only [List.mem_cons, List.mem_singleton, List.not_mem_nil, or_false,
      exists_eq_or_imp, exists_eq_left]
  · rfl

/-- C3: the verifier makes a second attempt exactly when the first
outcome is ChainingFailed or an outcome outside the named cases; the
six named outcomes are terminal after one attempt, and the total number
of attempts is always 1 or 2. -/
theorem verify_attempt_count (pf : Platform) (path : List Char) :
    ((SD_VerifyEmbeddedSignature pf path).2 = 2 ↔
        (firstAttempt pf path = .chainingFailed ∨
          ∃ c, firstAttempt pf path = .unknown c)) ∧
      ((SD_VerifyEmbeddedSignature pf path).2 = 1 ↔
        (firstAttempt pf path = .success ∨ firstAttempt pf path = .notSigned ∨
          firstAttempt pf path = .explicitlyDistrusted ∨
          firstAttempt pf path = .userDistrusted ∨
          firstAttempt pf path = .securityPolicyBlocked ∨
          firstAttempt pf path = .signatureInvalid)) ∧
      ((SD_VerifyEmbeddedSignature pf path).2 = 1 ∨
        (SD_VerifyEmbeddedSignature pf path).2 = 2) := by
  have h : SD_VerifyEmbeddedSignature pf path =
      if doSecondPassTrigger (firstAttempt pf path) then
        (secondAttempt pf path, 2)
      else
        (firstAttempt pf path, 1) := rfl
  rw [h]
  cases hf : firstAttempt pf path <;> simp [doSecondPassTrigger]

/-- C4: when the first attempt reports ChainingFailed, exactly one
retry happens, made without the cache-only flag, and the function
returns that second outcome; if the retry reports Success the pipeline
goes on to extraction and the publisher test, otherwise the external
result is false with no further attempt. -/
theorem verify_chaining_retry (pf : Platform) (path : List Char)
    (h : firstAttempt pf path = .chainingFailed) :
    SD_VerifyEmbeddedSignature pf path = (secondAttempt pf path, 2) ∧
      (secondAttempt pf path = .success →
        tgb_is_signed pf path = extractionAndPolicy pf path) ∧
      (secondAttempt pf path ≠ .success →
        tgb_is_signed pf path = some false) := by
  have hv : SD_VerifyEmbeddedSignature pf path = (secondAttempt pf path, 2) := by
    show (if doSecondPassTrigger (firstAttempt pf path) then
        (secondAttempt pf path, 2)
      else
        (firstAttempt pf path, 1)) = (secondAttempt pf path, 2)
    rw [h]
    rfl
  refine ⟨hv, ?_, ?_⟩
  · intro hs
    unfold tgb_is_signed
    rw [hv]
    simp [hs]
  · intro hs
    unfold tgb_is_signed
    rw [hv]
    simp [hs]

/-- Witness for verify_chaining_retry at a file whose first attempt
reports ChainingFailed and whose retry fails. -/
theorem verify_chaining_retry_witness :
    firstAttempt pf4 ['f'] = .chainingFailed ∧
      (SD_VerifyEmbeddedSignature pf4 ['f'] = (secondAttempt pf4 ['f'], 2) ∧
        (secondAttempt pf4 ['f'] = .success →
          tgb_is_signed pf4 ['f'] = extractionAndPolicy pf4 ['f']) ∧
        (secondAttempt pf4 ['f'] ≠ .success →
          tgb_is_signed pf4 ['f'] = some false)) :=
  ⟨rfl, verify_chaining_retry pf4 ['f'] rfl⟩

/-- C9: the effective allow-list is exactly the two hardcoded entries —
the subject test of tgb_is_signed succeeds iff the first 11 characters
case-insensitively equal TheGreenBow or the first 7 case-insensitively
equal SISTECH. -/
theorem subjectAllowed_hardcoded_allowlist (s : String) :
    subjectAllowed s = true ↔
      ((s.toList.take 11).map asciiToLower = "TheGreenBow".toList.map asciiToLower
        ∨ (s.toList.take 7).map asciiToLower = "SISTECH".toList.map asciiToLower) := by
  unfold subjectAllowed
  rw [Bool.or_eq_true,
    show (11 : Nat) = ("TheGreenBow".toList).length from rfl,
    show (7 : Nat) = ("SISTECH".toList).length from rfl,
    strnicmpZero_iff_take, strnicmpZero_iff_take]

/-- C1, code bug: on a file that parses as a signed object and whose
signer info is fetched, but whose signer certificate is not found in
the store, SD_GetAuthenticodeInformation still reports success while
serial number, issuer name and subject name are all left unset —
certificate extraction is not atomic. -/
theorem extraction_reports_success_without_certificate :
    (SD_GetAuthenticodeInformation pf1 ['f'] emptyInfo).1 = true ∧
      (SD_GetAuthenticodeInformation pf1 ['f'] emptyInfo).2.lpSerialNumber = none ∧
      (SD_GetAuthenticodeInformation pf1 ['f'] emptyInfo).2.lpszIssuerName = none ∧
      (SD_GetAuthenticodeInformation pf1 ['f'] emptyInfo).2.lpszSubjectName = none :=
  ⟨rfl, rfl, rfl, rfl⟩

/-- C5, code bug: with trust reporting Success and extraction reporting
success but the certificate lookup failing, the subject test reaches a
_tcsncicmp on the still-NULL lpszSubjectName — undefined behavior (an
access violation), so the caller does not receive a plain boolean. -/
theorem tgb_is_signed_null_subject_undefined :
    (SD_VerifyEmbeddedSignature pf5 ['f']).1 = .success ∧
      (SD_GetAuthenticodeInformation pf5 ['f'] emptyInfo).1 = true ∧
      tgb_is_signed pf5 ['f'] = none :=
  ⟨rfl, rfl, rfl⟩

/-- C6: the opus-info parser is a total function; when the opus
attribute is absent the three descriptive fields stay empty, and when
it is present and decodes but a link carries an unrecognized choice
tag, that link field is left empty. -/
theorem opus_absent_or_unknown_tag (pSignerInfo : SignerInfo) :
    (pSignerInfo.authAttrs.find? (fun a => a.objId == SPC_SP_OPUS_INFO_OBJID) = none →
        GetProgAndPublisherInfo pSignerInfo emptyInfo = emptyInfo) ∧
      (∀ attr dwData opusInfo,
        pSignerInfo.authAttrs.find?
            (fun a => a.objId == SPC_SP_OPUS_INFO_OBJID) = some attr →
        attr.decodeOpusSize = some dwData →
        attr.decodeOpus dwData = some opusInfo →
        ((∀ tag, opusInfo.pPublisherInfo = some (.other tag) →
            (GetProgAndPublisherInfo pSignerInfo emptyInfo).lpszPublisherLink = none) ∧
          (∀ tag, opusInfo.pMoreInfo = some (.other tag) →
            (GetProgAndPublisherInfo pSignerInfo emptyInfo).lpszMoreInfoLink = none))) := by
  constructor
  · intro h
    unfold GetProgAndPublisherInfo
    rw [h]
  · intro attr dwData opusInfo hfind hsize hdec
    unfold GetProgAndPublisherInfo
    simp only [hfind, hsize, hdec]
    constructor
    · intro tag htag
      simp [htag, linkToString]
    · intro tag htag
      simp [htag, linkToString]

/-- Witness for opus_absent_or_unknown_tag: a signer info without the
attribute yields untouched fields, and one with unrecognized link tags
yields empty link fields. -/
theorem opus_absent_or_unknown_tag_witness :
    GetProgAndPublisherInfo si6absent emptyInfo = emptyInfo ∧
      (GetProgAndPublisherInfo si6tag emptyInfo).lpszPublisherLink = none ∧
      (GetProgAndPublisherInfo si6tag emptyInfo).lpszMoreInfoLink = none :=
  ⟨(opus_absent_or_unknown_tag si6absent).1 rfl,
    ((opus_absent_or_unknown_tag si6tag).2 attr6 4 opus6 rfl rfl rfl).1 3 rfl,
    ((opus_absent_or_unknown_tag si6tag).2 attr6 4 opus6 rfl rfl rfl).2 3 rfl⟩

/-- C7, amended: extraction reports success iff the path fits the
MAX_PATH conversion buffer, the file opens as a signed object, the
signer-info size query answers, and the fetch into a buffer of exactly
the queried size succeeds; so it fails exactly on path truncation, on
QueryFailed, or on SignerInfoUnavailable. -/
theorem extract_success_characterization (pf : Platform) (path : List Char)
    (pInfo : SPROG_SIGNATUREINFO) :
    (SD_GetAuthenticodeInformation pf path pInfo).1 = true ↔
      (path.length ≤ MAX_PATH - 1 ∧
        ∃ ms, pf.cryptQueryObject path = some ms ∧
          ∃ dwSignerInfo, ms.hMsg.signerInfoSize = some dwSignerInfo ∧
            ∃ si, ms.hMsg.signerInfoFetch dwSignerInfo = some si) := by
  unfold SD_GetAuthenticodeInformation mbstowcsTrunc
  by_cases hl : path.length ≤ MAX_PATH - 1
  · rw [if_pos hl]
    simp only [ne_eq, not_true_eq_false, if_false, hl, true_and]
    cases hq : pf.cryptQueryObject path with
    | none => simp
    | some ms =>
      cases hs : ms.hMsg.signerInfoSize with
      | none => simp [hs]
      | some dw =>
        cases hf : ms.hMsg.signerInfoFetch dw with
        | none => simp [hs, hf]
        | some si => simp [hs, hf]
  · rw [if_neg hl]
    simp [STRUNCATE, hl]

set_option maxRecDepth 8000 in
/-- C7, counterexample to the claim as stated: on a path of MAX_PATH
characters every platform query succeeds — the file opens as a signed
object and the signer-info size query and fetch both answer — yet
extraction fails, a failure that is neither QueryFailed nor
SignerInfoUnavailable. -/
theorem extract_fails_on_long_path_oracles_ok :
    (SD_GetAuthenticodeInformation pfAllOk longPath emptyInfo).1 = false ∧
      pfAllOk.cryptQueryObject (mbstowcsTrunc longPath).1 = some msAllOk ∧
      msAllOk.hMsg.signerInfoSize = some 1 ∧
      msAllOk.hMsg.signerInfoFetch 1 = some si1 :=
  ⟨rfl, rfl, rfl, rfl⟩

/-- C8: calling tgb_is_signed twice in a row on the same path, the
second call running against the platform state the first call returned,
produces the same answer. -/
theorem tgb_is_signed_idempotent (pf : Platform) (path : List Char) :
    (tgb_is_signed_call (tgb_is_signed_call pf path).2 path).1 =
      (tgb_is_signed_call pf path).1 := rfl

/-- C10, amended: on a path of MAX_PATH characters or more, trust
verification silently uses the truncated path — its result equals the
result on the truncated path — while signer-info extraction checks the
conversion status (STRUNCATE) and fails instead of operating on the
truncated path. -/
theorem long_path_truncation_behavior (pf : Platform) (path : List Char)
    (h : MAX_PATH ≤ path.length) :
    SD_VerifyEmbeddedSignature pf path =
        SD_VerifyEmbeddedSignature pf (path.take (MAX_PATH - 1)) ∧
      (SD_GetAuthenticodeInformation pf path emptyInfo).1 = false := by
  have hgt : ¬ path.length ≤ MAX_PATH - 1 := by
    unfold MAX_PATH at h ⊢
    omega
  have hconv : mbstowcsTrunc path = (path.take (MAX_PATH - 1), STRUNCATE) := by
    unfold mbstowcsTrunc
    rw [if_neg hgt]
  have hconv2 : mbstowcsTrunc (path.take (MAX_PATH - 1)) =
      (path.take (MAX_PATH - 1), 0) := by
    unfold mbstowcsTrunc
    rw [if_pos]
    simp [List.length_take]
  constructor
  · unfold SD_VerifyEmbeddedSignature
    rw [hconv, hconv2]
  · unfold SD_GetAuthenticodeInformation
    rw [hconv]
    simp [STRUNCATE]

/-- Witness for long_path_truncation_behavior at the 260-character path
on the all-succeeding platform. -/
theorem long_path_truncation_behavior_witness :
    SD_VerifyEmbeddedSignature pfAllOk longPath =
        SD_VerifyEmbeddedSignature pfAllOk (longPath.take (MAX_PATH - 1)) ∧
      (SD_GetAuthenticodeInformation pfAllOk longPath emptyInfo).1 = false :=
  long_path_truncation_behavior pfAllOk longPath (by simp [longPath])

set_option maxRecDepth 8000 in
/-- C10, counterexample to the claim as stated: extraction does not
silently operate on the truncated path — on the full MAX_PATH-character
path it fails, while on the truncated path, with identical platform
answers, it succeeds. -/
theorem extract_long_path_not_silent :
    (SD_GetAuthenticodeInformation pfAllOk longPath emptyInfo).1 = false ∧
      (SD_GetAuthenticodeInformation pfAllOk (longPath.take (MAX_PATH - 1))
        emptyInfo).1 = true :=
  ⟨rfl, rfl⟩
